import Mathlib

/-!
Verification of the experimentation and progressive-rollout control plane
(ABTestManager and RolloutManager). The TypeScript classes are shallowly
embedded: class fields become structure fields, JavaScript Map objects become
association lists with first-occurrence lookup, numbers become rationals,
Math.random draws and clock reads become explicit parameters, and methods
become pure functions from state to state. Placeholder persistence
(localStorage writes) and console logging have no effect on the modelled
state and are not represented.
-/

namespace StrengthLog

/-- Association list standing in for a JavaScript Map. Map.set replaces the
value at an existing key in place (preserving insertion order) or appends a
new entry at the end; setEntry mirrors that on the first occurrence of the
key. -/
def setEntry {α : Type} (k : String) (v : α) : List (String × α) → List (String × α)
  | [] => [(k, v)]
  | kv :: rest => if kv.1 = k then (k, v) :: rest else kv :: setEntry k v rest

/-- Dynamic attribute values carried by evaluation contexts and flag
conditions (the TypeScript type is any). The undefVal constructor stands for
a missing key (the undefined value). -/
inductive AttrValue : Type where
  | str (s : String)
  | num (q : ℚ)
  | boolean (b : Bool)
  | arr (vs : List AttrValue)
  | undefVal

/-- Structural equality on attribute values, standing in for the JavaScript
comparison used by the eq and ne operators and by Array.prototype.includes. -/
def AttrValue.beq : AttrValue → AttrValue → Bool
  | .str a, .str b => a == b
  | .num a, .num b => a == b
  | .boolean a, .boolean b => a == b
  | .arr [], .arr [] => true
  | .arr (x :: xs), .arr (y :: ys) => AttrValue.beq x y && AttrValue.beq (.arr xs) (.arr ys)
  | .undefVal, .undefVal => true
  | _, _ => false

instance : BEq AttrValue := ⟨AttrValue.beq⟩

/-- Record literal: a context is a list of key and value pairs; a lookup of a
missing key yields the undefined value, like reading a missing property. -/
def lookupCtx (ctx : List (String × AttrValue)) (k : String) : AttrValue :=
  (ctx.lookup k).getD AttrValue.undefVal

/-! ## ABTestManager data model (src ABTestManager.ts) -/

inductive TestStatus : Type where
  | draft | active | paused | completed
deriving DecidableEq

inductive UserType : Type where
  | new | returning | beta | all
deriving DecidableEq

inductive Experience : Type where
  | beginner | intermediate | advanced
deriving DecidableEq

inductive Platform : Type where
  | mobile | desktop | tablet
deriving DecidableEq

inductive AllocType : Type where
  | random | deterministic | gradual
deriving DecidableEq

/-- ABVariant. The config payload (features, ui, analytics) is read by no
modelled operation and is omitted. Weights are 0 to 100 and should total
100. -/
structure ABVariant : Type where
  id : String
  name : String
  description : String
  weight : ℚ
  isControl : Bool
deriving DecidableEq

/-- AudienceCriteria. The customAttributes record is read by no source
operation (isUserEligible checks only userType, experience and platform) and
is omitted. -/
structure AudienceCriteria : Type where
  userType : Option UserType := none
  experience : Option Experience := none
  platform : Option Platform := none
  location : Option (List String) := none
deriving DecidableEq

structure TargetAudience : Type where
  criteria : AudienceCriteria
  percentage : ℚ
  exclusions : Option (List String) := none
deriving DecidableEq

structure GradualRollout : Type where
  initialPercentage : ℚ
  incrementPercentage : ℚ
  incrementInterval : ℚ
  maxPercentage : ℚ
deriving DecidableEq

structure AllocationStrategy : Type where
  type : AllocType
  seed : Option String := none
  gradualRollout : Option GradualRollout := none
deriving DecidableEq

structure TestSafeguards : Type where
  maxErrorRate : ℚ
  maxLatencyIncrease : ℚ
  minSuccessRate : ℚ
  monitoringInterval : ℚ
deriving DecidableEq

inductive TriggerCondition : Type where
  | gt | lt | eq
deriving DecidableEq

structure RollbackTrigger : Type where
  metric : String
  condition : TriggerCondition
  threshold : ℚ
  duration : ℚ
deriving DecidableEq

/-- ABTest. Timestamp strings (startDate, endDate, createdDate) are modelled
by their epoch milliseconds as rationals; no claim reads the text of a
timestamp. The results field, written only by stopTest and read by no
modelled operation, is omitted. -/
structure ABTest : Type where
  id : String
  name : String
  description : String
  status : TestStatus
  variants : List ABVariant
  targetAudience : TargetAudience
  allocation : AllocationStrategy
  startDate : ℚ
  endDate : Option ℚ := none
  createdDate : ℚ
  primaryMetric : String
  secondaryMetrics : List String
  minimumSampleSize : ℚ
  confidenceLevel : ℚ
  safeguards : TestSafeguards
  rollbackTriggers : List RollbackTrigger
deriving DecidableEq

structure UserAssignment : Type where
  userId : String
  testId : String
  variantId : String
  assignedAt : ℚ
  isActive : Bool
deriving DecidableEq

structure ABTestEvent : Type where
  userId : String
  testId : String
  variantId : String
  eventType : String
  eventValue : Option ℚ
  metadata : List (String × AttrValue)
  timestamp : ℚ

structure VariantMetrics : Type where
  conversionRate : ℚ
  averageValue : ℚ
  standardError : ℚ
  confidenceInterval : ℚ × ℚ
  customMetrics : List (String × ℚ)

inductive SigMethod : Type where
  | welch | pooled | bayesian
deriving DecidableEq

structure SignificanceTest : Type where
  pValue : ℚ
  zScore : ℚ
  significant : Bool
  method : SigMethod
deriving DecidableEq

/-- Recommendation values of ABTestResults; the source literal continue is
spelled cont here because continue is reserved. -/
inductive Recommendation : Type where
  | cont | rollback | winner | inconclusive
deriving DecidableEq

/-- In-memory state of an ABTestManager instance: the activeTests and
userAssignments maps, the testEvents array, and the fixed userId the manager
was constructed with. -/
structure ABState : Type where
  activeTests : List (String × ABTest)
  userAssignments : List (String × List UserAssignment)
  testEvents : List ABTestEvent
  userId : String

/-- Explicit substitutes for the sources of nondeterminism inside one
evaluation call: the Math.random times 100 draws made by isUserEligible,
randomAssignment and gradualAssignment, plus the Date.now clock reading. -/
structure RandomEnv : Type where
  eligibilityRoll : ℚ
  allocationRoll : ℚ
  gradualRoll : ℚ
  nowMs : ℚ


/-! ## ABTestManager operations -/

/-- ToInt32 wrap of JavaScript bitwise operations: hash and hash in the
source truncates the accumulated double to a signed 32-bit integer. -/
def toInt32 (n : ℤ) : ℤ := (n + 2 ^ 31) % 2 ^ 32 - 2 ^ 31

/-- One iteration of the simpleHash loop: hash becomes the 32-bit truncation
of hash shifted left by 5 minus hash plus the character code. The shift
itself operates on (and yields) a 32-bit value. -/
def simpleHashStep (hash : ℤ) (c : ℕ) : ℤ :=
  toInt32 (toInt32 (hash * 32) - hash + c)

/-- simpleHash of ABTestManager and RolloutManager: a 32-bit rolling hash of
the character codes of the string, made non-negative with Math.abs. Character
codes are modelled as Unicode code points, which agree with the UTF-16 units
charCodeAt returns for all code points below 0x10000. -/
def simpleHash (s : String) : ℕ :=
  (s.data.foldl (fun h ch => simpleHashStep h ch.toNat) 0).natAbs

/-- Cumulative-weight walk shared by randomAssignment and
deterministicAssignment: scans the variant list accumulating weights and
returns the first variant whose cumulative weight reaches the drawn
percentage. -/
def walkVariants (percentage : ℚ) (cumulative : ℚ) : List ABVariant → Option String
  | [] => none
  | v :: rest =>
    let c := cumulative + v.weight
    if percentage ≤ c then some v.id else walkVariants percentage c rest

/-- Fallback expression variants[0].id used when the walk falls through; on
an empty list the source faults reading .id of undefined, which no settled
claim exercises, and the model yields the empty id. -/
def headVariantId (variants : List ABVariant) : String :=
  ((variants.head?).map (fun v => v.id)).getD ""

/-- randomAssignment: one uniform draw (passed in as roll, the value of
Math.random times 100) against the cumulative weight table. -/
def randomAssignment (roll : ℚ) (variants : List ABVariant) : String :=
  (walkVariants roll 0 variants).getD (headVariantId variants)

/-- deterministicAssignment: stable hash of userId plus seed, reduced to a
percentage in [0, 100), walked against the cumulative weight table. -/
def deterministicAssignment (userId : String) (variants : List ABVariant)
    (seed : Option String) : String :=
  let hashInput := userId ++ seed.getD ""
  let hash := simpleHash hashInput
  let percentage : ℚ := ((hash % 10000 : ℕ) : ℚ) / 100
  (walkVariants percentage 0 variants).getD (headVariantId variants)

/-- Fallback test.variants.find(v => v.isControl)?.id || test.variants[0].id
of gradualAssignment; the JavaScript or-else also rejects an empty control
id because the empty string is falsy. -/
def controlOrFirstId (variants : List ABVariant) : String :=
  match variants.find? (fun v => v.isControl) with
  | some v => if v.id = "" then headVariantId variants else v.id
  | none => headVariantId variants

/-- gradualAssignment: the current exposure percentage ramps from
initialPercentage by incrementPercentage every incrementInterval hours up to
maxPercentage; a fresh draw above it forces the control variant, otherwise
the assignment falls through to randomAssignment. -/
def gradualAssignment (env : RandomEnv) (test : ABTest) : String :=
  match test.allocation.gradualRollout with
  | none => randomAssignment env.allocationRoll test.variants
  | some gradualRollout =>
    let hoursElapsed := (env.nowMs - test.startDate) / (1000 * 60 * 60)
    let increments : ℤ := ⌊hoursElapsed / gradualRollout.incrementInterval⌋
    let currentPercentage :=
      min (gradualRollout.initialPercentage + increments * gradualRollout.incrementPercentage)
        gradualRollout.maxPercentage
    if env.gradualRoll > currentPercentage then controlOrFirstId test.variants
    else randomAssignment env.allocationRoll test.variants

/-- Hard-coded getUserData stub of the source: every caller is a beta,
intermediate, desktop user with an empty attributes record. -/
def userDataType : UserType := .beta

def userDataExperience : Experience := .intermediate

def userDataPlatform : Platform := .desktop

def userDataAttribute (_attr : String) : Bool := false

/-- isUserEligible: the percentage roll must not exceed the audience
percentage, each configured criterion must match the (hard-coded) user data,
and no exclusion attribute may be set. -/
def isUserEligible (env : RandomEnv) (test : ABTest) : Bool :=
  if env.eligibilityRoll > test.targetAudience.percentage then false
  else if (test.targetAudience.criteria.userType.any fun ut => ut != userDataType) then false
  else if (test.targetAudience.criteria.experience.any fun e => e != userDataExperience) then
    false
  else if (test.targetAudience.criteria.platform.any fun p => p != userDataPlatform) then false
  else if (match test.targetAudience.exclusions with
           | some l => l.any (fun e => userDataAttribute e)
           | none => false) then false
  else true

/-- assignUserToVariant dispatches on the allocation strategy; the userId is
the manager's fixed user. -/
def assignUserToVariant (userId : String) (env : RandomEnv) (test : ABTest) : String :=
  match test.allocation.type with
  | .random => randomAssignment env.allocationRoll test.variants
  | .deterministic => deterministicAssignment userId test.variants test.allocation.seed
  | .gradual => gradualAssignment env test

/-- getUserAssignment: first assignment of the manager user for the test
that is still active. -/
def getUserAssignment (s : ABState) (testId : String) : Option UserAssignment :=
  ((s.userAssignments.lookup s.userId).getD []).find?
    (fun a => a.testId == testId && a.isActive)

/-- recordAssignment: appends a fresh active assignment to the user
assignment list. -/
def recordAssignment (now : ℚ) (s : ABState) (testId variantId : String) : ABState :=
  let assignment : UserAssignment :=
    { userId := s.userId
      testId := testId
      variantId := variantId
      assignedAt := now
      isActive := true }
  let userAssignments := (s.userAssignments.lookup s.userId).getD []
  { s with userAssignments :=
      setEntry s.userId (userAssignments ++ [assignment]) s.userAssignments }

/-- getAssignment: null for unknown or non-active tests; the cached active
assignment if one exists; otherwise eligibility, allocation, and recording
of the fresh assignment. Returns the variant id (or none) together with the
resulting manager state. -/
def getAssignment (env : RandomEnv) (testId : String) (s : ABState) :
    Option String × ABState :=
  match s.activeTests.lookup testId with
  | none => (none, s)
  | some test =>
    if test.status ≠ TestStatus.active then (none, s)
    else
      match getUserAssignment s testId with
      | some existingAssignment => (some existingAssignment.variantId, s)
      | none =>
        if !(isUserEligible env test) then (none, s)
        else
          let variantId := assignUserToVariant s.userId env test
          (some variantId, recordAssignment env.nowMs s testId variantId)

/-- trackEvent: silently drops the event when the caller has no active
assignment for the test; otherwise appends exactly one event carrying the
assignment variant id. -/
def trackEvent (now : ℚ) (testId eventType : String) (eventValue : Option ℚ)
    (metadata : List (String × AttrValue)) (s : ABState) : ABState :=
  match getUserAssignment s testId with
  | none => s
  | some assignment =>
    { s with testEvents := s.testEvents ++
        [{ userId := s.userId
           testId := testId
           variantId := assignment.variantId
           eventType := eventType
           eventValue := eventValue
           metadata := metadata
           timestamp := now }] }

/-- validateTestConfig: the only creation-time check — variant weights must
total 100 within 0.01. -/
def validateTestConfig (test : ABTest) : Except String Unit :=
  let totalWeight := test.variants.foldl (fun sum v => sum + v.weight) 0
  if 1 / 100 < |totalWeight - 100| then Except.error "Variant weights must sum to 100"
  else Except.ok ()

/-- createTest: builds the test with a fresh id (passed in, since generateId
reads the clock and Math.random), draft status and creation time, validates
it, and only then stores it. -/
def createTest (testId : String) (now : ℚ) (testConfig : ABTest) (s : ABState) :
    Except String ABState :=
  let test : ABTest := { testConfig with
    id := testId
    status := TestStatus.draft
    createdDate := now }
  match validateTestConfig test with
  | Except.error e => Except.error e
  | Except.ok _ =>
    Except.ok { s with activeTests := setEntry testId test s.activeTests }

/-- erf approximation (Abramowitz and Stegun class); Math.exp is abstracted
as the expFn parameter because the settled claims depend only on the
structure of the computation, never on a transcendental value. -/
def erfApprox (expFn : ℚ → ℚ) (x : ℚ) : ℚ :=
  let a1 : ℚ := 0.254829592
  let a2 : ℚ := -0.284496736
  let a3 : ℚ := 1.421413741
  let a4 : ℚ := -1.453152027
  let a5 : ℚ := 1.061405429
  let p : ℚ := 0.3275911
  let sign : ℚ := if x ≥ 0 then 1 else -1
  let x := |x|
  let t : ℚ := 1 / (1 + p * x)
  let y : ℚ := 1 - (((((a5 * t + a4) * t) + a3) * t + a2) * t + a1) * t * expFn (-x * x)
  sign * y

/-- normalCDF via the erf approximation; Math.sqrt is abstracted as sqrtFn. -/
def normalCDF (sqrtFn expFn : ℚ → ℚ) (x : ℚ) : ℚ :=
  1 / 2 * (1 + erfApprox expFn (x / sqrtFn 2))

/-- calculatePValue: two-tailed p-value from the normal CDF. -/
def calculatePValue (sqrtFn expFn : ℚ → ℚ) (zScore : ℚ) : ℚ :=
  2 * (1 - normalCDF sqrtFn expFn |zScore|)

/-- performSignificanceTest: control versus the first variant not marked
control; a missing control or missing treatment yields the neutral result
p = 1, z = 0, not significant. The metrics record is modelled as a total
function from variant id to VariantMetrics, as calculateResults populates an
entry for every variant. -/
def performSignificanceTest (sqrtFn expFn : ℚ → ℚ)
    (metrics : String → VariantMetrics) (variants : List ABVariant) : SignificanceTest :=
  match variants.find? (fun v => v.isControl), variants.find? (fun v => !v.isControl) with
  | some controlVariant, some testVariant =>
    let control := metrics controlVariant.id
    let test := metrics testVariant.id
    let pooledSE := sqrtFn (control.standardError ^ 2 + test.standardError ^ 2)
    let zScore := if pooledSE > 0 then (test.averageValue - control.averageValue) / pooledSE
                  else 0
    let pValue := calculatePValue sqrtFn expFn |zScore|
    { pValue := pValue
      zScore := zScore
      significant := pValue < 1 / 20
      method := SigMethod.welch }
  | _, _ => { pValue := 1, zScore := 0, significant := false, method := SigMethod.welch }

/-- generateRecommendation: inconclusive unless significant; otherwise the
control is compared against the first variant not marked control — winner if
that variant has the higher mean, rollback otherwise. -/
def generateRecommendation (significance : SignificanceTest)
    (metrics : String → VariantMetrics) (test : ABTest) : Recommendation :=
  if ¬ significance.significant then Recommendation.inconclusive
  else
    match test.variants.find? (fun v => v.isControl),
          test.variants.find? (fun v => !v.isControl) with
    | some controlVariant, some testVariant =>
      let controlMetrics := metrics controlVariant.id
      let testMetrics := metrics testVariant.id
      if testMetrics.averageValue > controlMetrics.averageValue then Recommendation.winner
      else Recommendation.rollback
    | _, _ => Recommendation.inconclusive

/-! ## RolloutManager data model (src RolloutManager.ts) -/

inductive RolloutStatus : Type where
  | planned | active | paused | completed | rolled_back
deriving DecidableEq

inductive CondOperator : Type where
  | gt | lt | eq
deriving DecidableEq

inductive Severity : Type where
  | warning | critical
deriving DecidableEq

structure RollbackCondition : Type where
  metric : String
  threshold : ℚ
  operator : CondOperator
  duration : ℚ
  severity : Severity
deriving DecidableEq

structure CustomBounds : Type where
  min : Option ℚ := none
  max : Option ℚ := none
deriving DecidableEq

structure PhaseCriteria : Type where
  minSuccessRate : ℚ
  maxErrorRate : ℚ
  maxLatencyIncrease : ℚ
  minUserSatisfaction : Option ℚ := none
  customMetrics : Option (List (String × CustomBounds)) := none
deriving DecidableEq

structure RolloutPhase : Type where
  name : String
  percentage : ℚ
  duration : ℚ
  criteria : PhaseCriteria
  audiences : List String
deriving DecidableEq

inductive RolloutType : Type where
  | canary | blue_green | gradual | feature_flag
deriving DecidableEq

inductive RolloutAudience : Type where
  | beta | staff | percentage | all
deriving DecidableEq

inductive RollbackStrategy : Type where
  | immediate | gradual | manual
deriving DecidableEq

structure RolloutStrategy : Type where
  type : RolloutType
  targetAudience : RolloutAudience
  rollbackStrategy : RollbackStrategy
deriving DecidableEq

/-- Numeric half of RolloutMetrics. The phase transition snapshot
spread-copies the metrics object; the snapshot is modelled without the
nested phaseTransitions array (which no claim and no source read ever
inspects) so that the type stays non-recursive. -/
structure RolloutCoreMetrics : Type where
  usersAffected : ℚ
  errorRate : ℚ
  successRate : ℚ
  averageLatency : ℚ
  userSatisfaction : ℚ
  featureAdoption : ℚ
  rollbacksTriggered : ℚ
deriving DecidableEq

structure PhaseTransition : Type where
  fromPhase : ℕ
  toPhase : ℕ
  timestamp : ℚ
  reason : String
  metrics : RolloutCoreMetrics
deriving DecidableEq

structure RolloutMetrics extends RolloutCoreMetrics : Type where
  phaseTransitions : List PhaseTransition
deriving DecidableEq

/-- RolloutPlan. Timestamps are epoch milliseconds; the monitoringConfig
record (dashboard and alerting wiring) is read by no source operation and is
omitted. -/
structure RolloutPlan : Type where
  id : String
  name : String
  description : String
  feature : String
  strategy : RolloutStrategy
  phases : List RolloutPhase
  startDate : ℚ
  estimatedCompletion : ℚ
  actualCompletion : Option ℚ := none
  status : RolloutStatus
  currentPhase : ℕ
  currentPercentage : ℚ
  rollbackConditions : List RollbackCondition
  metrics : RolloutMetrics
deriving DecidableEq

inductive FlagOperator : Type where
  | eq | ne | inList | not_in | gt | lt
deriving DecidableEq

/-- FlagCondition; the operator literal in is spelled inList and the field
attribute is spelled attr because both words are reserved here. The value
field has TypeScript type any. -/
structure FlagCondition : Type where
  attr : String
  operator : FlagOperator
  value : AttrValue

structure FlagVariant : Type where
  id : String
  name : String
  weight : ℚ
deriving DecidableEq

/-- FeatureFlag; the config payload of each variant is read by no modelled
operation and is omitted from FlagVariant. -/
structure FeatureFlag : Type where
  id : String
  name : String
  description : String
  enabled : Bool
  rolloutPercentage : ℚ
  targetAudiences : List String
  conditions : List FlagCondition
  variants : Option (List FlagVariant) := none

/-- In-memory state of a RolloutManager instance: the activeRollouts and
featureFlags maps and the fixed userId. The embedded ABTestManager and
BetaManager collaborators hold separate state that no settled claim
inspects; calls into them (createRolloutABTest, stopTest) are therefore not
represented in this state. -/
structure RMState : Type where
  activeRollouts : List (String × RolloutPlan)
  featureFlags : List (String × FeatureFlag)
  userId : String

/-- Live metrics reading, a Record of metric name to number. The injected
provider supplies a value for every tracked metric, so the record is
modelled as a total function. -/
def MetricsReading : Type := String → ℚ

/-! ## RolloutManager operations -/

/-- evaluateRollbackCondition: compares the named metric against the
threshold; eq means within 0.001. -/
def evaluateRollbackCondition (condition : RollbackCondition)
    (metrics : MetricsReading) : Bool :=
  let value := metrics condition.metric
  match condition.operator with
  | .gt => value > condition.threshold
  | .lt => value < condition.threshold
  | .eq => |value - condition.threshold| < 1 / 1000

/-- shouldTriggerRollback: true when some critical condition is breached
(used only on the phase-evaluation path). -/
def shouldTriggerRollback (plan : RolloutPlan) (metrics : MetricsReading) : Bool :=
  plan.rollbackConditions.any fun condition =>
    condition.severity == Severity.critical && evaluateRollbackCondition condition metrics

/-- evaluatePhaseCriteria: success rate, error rate and latency bounds, the
optional satisfaction bound (skipped when absent or zero, since the source
guards it with JavaScript truthiness), and the optional custom bounds. -/
def evaluatePhaseCriteria (criteria : PhaseCriteria) (metrics : MetricsReading) : Bool :=
  if metrics "successRate" < criteria.minSuccessRate then false
  else if metrics "errorRate" > criteria.maxErrorRate then false
  else if metrics "latency" > criteria.maxLatencyIncrease then false
  else if (criteria.minUserSatisfaction.any fun m =>
      m != 0 && decide (metrics "userSatisfaction" < m)) then false
  else
    match criteria.customMetrics with
    | none => true
    | some customMetrics =>
      customMetrics.all fun nb =>
        (match nb.2.min with
         | some mn => decide (¬ metrics nb.1 < mn)
         | none => true) &&
        (match nb.2.max with
         | some mx => decide (¬ metrics nb.1 > mx)
         | none => true)

/-- rollbackRollout: marks the plan rolled_back, bumps the rollback counter,
and disables and zeroes the target feature flag when one is stored under the
plan feature id. All of these in-memory mutations complete BEFORE the source
then awaits abTestManager.stopTest on the key rollout- plus the plan id,
which is never present and therefore throws; the throw only skips the
notification and the localStorage write (neither is modelled state) and
propagates to the caller. An unknown id throws before any mutation, leaving
the state unchanged. -/
def rollbackRollout (rolloutId _reason : String) (s : RMState) : RMState :=
  match s.activeRollouts.lookup rolloutId with
  | none => s
  | some plan =>
    let plan' := { plan with
      status := RolloutStatus.rolled_back
      metrics := { plan.metrics with
        rollbacksTriggered := plan.metrics.rollbacksTriggered + 1 } }
    let s' := { s with activeRollouts := setEntry rolloutId plan' s.activeRollouts }
    match s'.featureFlags.lookup plan.feature with
    | none => s'
    | some featureFlag =>
      let flag' := { featureFlag with enabled := false, rolloutPercentage := (0 : ℚ) }
      { s' with featureFlags := setEntry plan.feature flag' s'.featureFlags }

/-- pauseRollout: sets the status to paused with no status precondition. -/
def pauseRollout (rolloutId : String) (s : RMState) : RMState :=
  match s.activeRollouts.lookup rolloutId with
  | none => s
  | some plan =>
    { s with activeRollouts :=
        setEntry rolloutId { plan with status := RolloutStatus.paused } s.activeRollouts }

/-- resumeRollout: sets the status to active with no status precondition —
in particular it also reactivates a rolled_back plan. -/
def resumeRollout (rolloutId : String) (s : RMState) : RMState :=
  match s.activeRollouts.lookup rolloutId with
  | none => s
  | some plan =>
    { s with activeRollouts :=
        setEntry rolloutId { plan with status := RolloutStatus.active } s.activeRollouts }

/-- completeRollout: marks the plan completed, records the completion time,
pins currentPercentage and the flag percentage to 100 — all before the
source awaits abTestManager.stopTest on the never-present rollout- key,
whose throw skips only the localStorage write and the notification. -/
def completeRollout (now : ℚ) (rolloutId : String) (s : RMState) : RMState :=
  match s.activeRollouts.lookup rolloutId with
  | none => s
  | some plan =>
    let plan' := { plan with
      status := RolloutStatus.completed
      actualCompletion := some now
      currentPercentage := 100 }
    let s' := { s with activeRollouts := setEntry rolloutId plan' s.activeRollouts }
    match s'.featureFlags.lookup plan.feature with
    | none => s'
    | some featureFlag =>
      let flag' := { featureFlag with rolloutPercentage := (100 : ℚ) }
      { s' with featureFlags := setEntry plan.feature flag' s'.featureFlags }

/-- transitionToPhase: completes the rollout when the index is past the last
phase; otherwise records a transition, sets currentPhase and
currentPercentage to the phase values, and writes the percentage onto the
target flag. The setTimeout that schedules the next evaluatePhaseTransition
is modelled as that operation arriving later as its own step. -/
def transitionToPhase (now : ℚ) (rolloutId : String) (phaseIndex : ℕ) (s : RMState) :
    RMState :=
  match s.activeRollouts.lookup rolloutId with
  | none => s
  | some plan =>
    match plan.phases[phaseIndex]? with
    | none => completeRollout now rolloutId s
    | some phase =>
      let transition : PhaseTransition := {
        fromPhase := plan.currentPhase
        toPhase := phaseIndex
        timestamp := now
        reason := "scheduled"
        metrics := plan.metrics.toRolloutCoreMetrics }
      let plan' := { plan with
        metrics := { plan.metrics with
          phaseTransitions := plan.metrics.phaseTransitions ++ [transition] }
        currentPhase := phaseIndex
        currentPercentage := phase.percentage }
      let s' := { s with activeRollouts := setEntry rolloutId plan' s.activeRollouts }
      match s'.featureFlags.lookup plan.feature with
      | none => s'
      | some featureFlag =>
        let flag' := { featureFlag with rolloutPercentage := phase.percentage }
        { s' with featureFlags := setEntry plan.feature flag' s'.featureFlags }

/-- evaluatePhaseTransition: fires only for an active plan; when the phase
criteria are met it advances to the next phase, otherwise it rolls back if
some critical condition is breached and pauses for manual review if not.
The source reads phase.criteria of an out-of-range index only through a
stale timer, which the scheduler never produces; that case leaves the state
unchanged here. -/
def evaluatePhaseTransition (now : ℚ) (rolloutId : String) (currentPhaseIndex : ℕ)
    (currentMetrics : MetricsReading) (s : RMState) : RMState :=
  match s.activeRollouts.lookup rolloutId with
  | none => s
  | some plan =>
    if plan.status ≠ RolloutStatus.active then s
    else
      match plan.phases[currentPhaseIndex]? with
      | none => s
      | some phase =>
        if evaluatePhaseCriteria phase.criteria currentMetrics then
          transitionToPhase now rolloutId (currentPhaseIndex + 1) s
        else if shouldTriggerRollback plan currentMetrics then
          rollbackRollout rolloutId "Phase criteria not met" s
        else
          pauseRollout rolloutId s

/-- Object.assign of the live metrics reading onto plan.metrics: the
provider supplies successRate, errorRate, latency, userSatisfaction,
featureAdoption and usersAffected; of these only the identically named
RolloutMetrics fields are overwritten (averageLatency does not match the
provider key latency and keeps its value). -/
def assignMetrics (m : RolloutMetrics) (reading : MetricsReading) : RolloutMetrics :=
  { m with
    successRate := reading "successRate"
    errorRate := reading "errorRate"
    userSatisfaction := reading "userSatisfaction"
    featureAdoption := reading "featureAdoption"
    usersAffected := reading "usersAffected" }

/-- Body of the checkActiveRollouts loop for one plan: skips non-active
plans, assigns the fresh metrics onto the plan, then rolls back on the first
breached rollback condition of any severity (the loop breaks after the first
hit). -/
def checkRollout (metricsOf : String → MetricsReading) (rolloutId : String)
    (s : RMState) : RMState :=
  match s.activeRollouts.lookup rolloutId with
  | none => s
  | some plan =>
    if plan.status ≠ RolloutStatus.active then s
    else
      let currentMetrics := metricsOf rolloutId
      let plan' := { plan with metrics := assignMetrics plan.metrics currentMetrics }
      let s' := { s with activeRollouts := setEntry rolloutId plan' s.activeRollouts }
      match plan.rollbackConditions.find?
          (fun condition => evaluateRollbackCondition condition currentMetrics) with
      | some condition =>
        rollbackRollout rolloutId ("Rollback condition triggered: " ++ condition.metric) s'
      | none => s'

/-- Whether the monitor pass body for this plan reaches its rollbackRollout
call: the plan is active and some rollback condition is breached. When that
happens, rollbackRollout finishes all its in-memory mutations and then
throws at its stopTest call (see rollbackRollout), so the awaited rejection
aborts the rest of the monitor pass. -/
def monitorBreached (metricsOf : String → MetricsReading) (rolloutId : String)
    (s : RMState) : Bool :=
  match s.activeRollouts.lookup rolloutId with
  | none => false
  | some plan =>
    plan.status == RolloutStatus.active &&
      plan.rollbackConditions.any
        (fun condition => evaluateRollbackCondition condition (metricsOf rolloutId))

/-- The monitor pass over a list of plan ids in map order: each plan is
processed by checkRollout; as soon as one plan triggers a rollback, the
exception thrown inside rollbackRollout (after its mutations are complete)
ends the whole pass, leaving the remaining plans unchecked in that pass. -/
def checkActiveRolloutsFrom (metricsOf : String → MetricsReading) :
    List String → RMState → RMState
  | [], s => s
  | rolloutId :: rest, s =>
    let s' := checkRollout metricsOf rolloutId s
    if monitorBreached metricsOf rolloutId s then s'
    else checkActiveRolloutsFrom metricsOf rest s'

/-- checkActiveRollouts: the Safety Monitor pass over every stored plan, run
on a fixed five-minute interval independent of phase timers; the pass aborts
after the first plan that gets rolled back, because the rollback throws (at
its stopTest lookup) out of the enclosing loop. -/
def checkActiveRollouts (metricsOf : String → MetricsReading) (s : RMState) : RMState :=
  checkActiveRolloutsFrom metricsOf (s.activeRollouts.map Prod.fst) s

/-- startRollout: marks the plan active and stamps the start time, and then
ABORTS before its phase-0 transition. The source next awaits
createRolloutABTest, which stores the mirrored A/B test under a freshly
GENERATED id (ABTestManager.createTest calls generateId) but then calls
abTestManager.startTest with the key rollout- followed by the plan id — a
key never present in activeTests — so startTest always throws Test not
found (with an empty phase list the config construction already faults on
phases[0] first). The awaited rejection propagates out of startRollout
before transitionToPhase(rolloutId, 0) is reached: a started plan keeps
currentPhase 0 and currentPercentage 0 whatever phases[0] prescribes, the
target flag is not written, and no phase timer is ever scheduled. -/
def startRollout (now : ℚ) (rolloutId : String) (s : RMState) : RMState :=
  match s.activeRollouts.lookup rolloutId with
  | none => s
  | some plan =>
    let plan' := { plan with status := RolloutStatus.active, startDate := now }
    { s with activeRollouts := setEntry rolloutId plan' s.activeRollouts }

/-- createRolloutPlan: stores the plan with planned status, phase 0,
percentage 0 and zeroed metrics; no validation of any kind (an empty phase
list is accepted). The generated id is passed in. -/
def createRolloutPlan (rolloutId : String) (plan : RolloutPlan) (s : RMState) : RMState :=
  let fullPlan := { plan with
    id := rolloutId
    status := RolloutStatus.planned
    currentPhase := 0
    currentPercentage := 0
    metrics := {
      usersAffected := 0
      errorRate := 0
      successRate := 1
      averageLatency := 0
      userSatisfaction := 0
      featureAdoption := 0
      rollbacksTriggered := 0
      phaseTransitions := [] } }
  { s with activeRollouts := setEntry rolloutId fullPlan s.activeRollouts }

/-- createFeatureFlag: stores the flag under a fresh id with no validation
of any kind (variant weights are not checked). -/
def createFeatureFlag (flagId : String) (flag : FeatureFlag) (s : RMState) : RMState :=
  { s with featureFlags := setEntry flagId { flag with id := flagId } s.featureFlags }

/-- Hard-coded getUserAudiences stub of the source. -/
def getUserAudiences : List String := ["beta", "desktop"]

/-- Hard-coded getUserContext record of the source. -/
def getUserContext (userId : String) : List (String × AttrValue) :=
  [("userId", AttrValue.str userId), ("platform", AttrValue.str "web"),
   ("version", AttrValue.str "2.0.0"), ("locale", AttrValue.str "en-US")]

/-- evaluateConditions: every condition must hold against the context. The
eq and ne operators use structural equality in place of the JavaScript
strict comparison; gt and lt require a numeric context value (the source
checks typeof value) and are modelled for numeric condition values. -/
def evaluateConditions (conditions : List FlagCondition)
    (context : List (String × AttrValue)) : Bool :=
  conditions.all fun condition =>
    let value := lookupCtx context condition.attr
    match condition.operator with
    | .eq => value == condition.value
    | .ne => value != condition.value
    | .inList =>
      match condition.value with
      | .arr l => l.any fun x => x == value
      | _ => false
    | .not_in =>
      match condition.value with
      | .arr l => !(l.any fun x => x == value)
      | _ => false
    | .gt =>
      match value, condition.value with
      | .num a, .num b => a > b
      | _, _ => false
    | .lt =>
      match value, condition.value with
      | .num a, .num b => a < b
      | _, _ => false

/-- Lookup of a flag by name: the source scans the map values in insertion
order and takes the first flag whose name matches. -/
def findFlagByName (flags : List (String × FeatureFlag)) (flagName : String) :
    Option FeatureFlag :=
  (flags.map Prod.snd).find? fun f => f.name == flagName

/-- isFeatureEnabled: the flag must exist and be enabled, a fresh
Math.random times 100 draw (the roll parameter) must not exceed the rollout
percentage, the user must belong to some target audience when any are
configured, and all conditions must hold against the merged context. The
spread merge of the base context with the per-call override is modelled by
prepending the override, since lookup takes the first match. -/
def isFeatureEnabled (roll : ℚ) (s : RMState) (flagName : String)
    (userContext : Option (List (String × AttrValue))) : Bool :=
  match findFlagByName s.featureFlags flagName with
  | none => false
  | some flag =>
    if !flag.enabled then false
    else if roll > flag.rolloutPercentage then false
    else if flag.targetAudiences.length > 0 &&
        !(flag.targetAudiences.any fun audience => getUserAudiences.contains audience) then
      false
    else if flag.conditions.length > 0 &&
        !(evaluateConditions flag.conditions
          (userContext.getD [] ++ getUserContext s.userId)) then
      false
    else true

/-- Weight walk over flag variants, identical in shape to the experiment
variant walk. -/
def walkFlagVariants (percentage : ℚ) (cumulative : ℚ) : List FlagVariant → Option String
  | [] => none
  | v :: rest =>
    let c := cumulative + v.weight
    if percentage ≤ c then some v.id else walkFlagVariants percentage c rest

/-- Fallback flag.variants[0]?.id || null: the or-null also maps an empty
first id to null because the empty string is falsy. -/
def flagFallbackId (variants : List FlagVariant) : Option String :=
  match variants.head? with
  | some v => if v.id = "" then none else some v.id
  | none => none

/-- getFeatureVariant: null when the flag is missing, disabled or has no
variants, or when the (roll-dependent) isFeatureEnabled gate fails; then a
deterministic hash of userId plus flagName picks a variant from the
cumulative weight table. Each source call performs one fresh roll inside
isFeatureEnabled, which is the roll parameter here. -/
def getFeatureVariant (roll : ℚ) (s : RMState) (flagName : String)
    (userContext : Option (List (String × AttrValue))) : Option String :=
  match findFlagByName s.featureFlags flagName with
  | none => none
  | some flag =>
    match flag.variants with
    | none => none
    | some variants =>
      if !flag.enabled then none
      else if !(isFeatureEnabled roll s flagName userContext) then none
      else
        let hash := simpleHash (s.userId ++ flagName)
        let percentage : ℚ := ((hash % 10000 : ℕ) : ℚ) / 100
        match walkFlagVariants percentage 0 variants with
        | some id => some id
        | none => flagFallbackId variants

/-! ## Rollout operation sequences

The public operations of the RolloutManager, together with the two
internally scheduled callbacks (the phase timer firing
evaluatePhaseTransition and the monitoring interval firing
checkActiveRollouts), as one step type, so that properties over arbitrary
operation sequences can be stated. Because startRollout aborts before its
phase-0 transition, the deployed program never schedules a phase timer, so
evalPhaseOp steps are a superset of the behaviours the program can exhibit;
invariants proved over all sequences cover the program a fortiori. -/

inductive RolloutOp : Type where
  | createPlanOp (rolloutId : String) (plan : RolloutPlan)
  | createFlagOp (flagId : String) (flag : FeatureFlag)
  | startOp (rolloutId : String) (now : ℚ)
  | pauseOp (rolloutId : String)
  | resumeOp (rolloutId : String)
  | rollbackOp (rolloutId reason : String)
  | evalPhaseOp (rolloutId : String) (now : ℚ) (phaseIndex : ℕ) (metrics : MetricsReading)
  | monitorOp (metricsOf : String → MetricsReading)

def applyOp (s : RMState) : RolloutOp → RMState
  | .createPlanOp rolloutId plan => createRolloutPlan rolloutId plan s
  | .createFlagOp flagId flag => createFeatureFlag flagId flag s
  | .startOp rolloutId now => startRollout now rolloutId s
  | .pauseOp rolloutId => pauseRollout rolloutId s
  | .resumeOp rolloutId => resumeRollout rolloutId s
  | .rollbackOp rolloutId reason => rollbackRollout rolloutId reason s
  | .evalPhaseOp rolloutId now phaseIndex metrics =>
    evaluatePhaseTransition now rolloutId phaseIndex metrics s
  | .monitorOp metricsOf => checkActiveRollouts metricsOf s

/-- Lifecycle guard: an operation is guarded when its target plan (if
stored) is in the status the lifecycle diagram intends for it — start from
planned, pause from active, resume from paused, rollback from active or
paused. The internally scheduled operations and creation are always
guarded, as they check status themselves or create fresh state. -/
def guardedB (s : RMState) : RolloutOp → Bool
  | .startOp rolloutId _ =>
    match s.activeRollouts.lookup rolloutId with
    | some plan => plan.status == RolloutStatus.planned
    | none => true
  | .pauseOp rolloutId =>
    match s.activeRollouts.lookup rolloutId with
    | some plan => plan.status == RolloutStatus.active
    | none => true
  | .resumeOp rolloutId =>
    match s.activeRollouts.lookup rolloutId with
    | some plan => plan.status == RolloutStatus.paused
    | none => true
  | .rollbackOp rolloutId _ =>
    match s.activeRollouts.lookup rolloutId with
    | some plan =>
      plan.status == RolloutStatus.active || plan.status == RolloutStatus.paused
    | none => true
  | _ => true

/-- GuardedSeq: every operation of the sequence is guarded in the state it
fires in. -/
def GuardedSeq (s : RMState) : List RolloutOp → Prop
  | [] => True
  | op :: ops => guardedB s op = true ∧ GuardedSeq (applyOp s op) ops

/-- Percentage coherence of one plan: a planned plan sits before phase 0 at
percentage 0; a completed plan carries 100; an active, paused or rolled back
plan carries either the percentage of the phase at its currentPhase index
(after a phase transition) or still the untransitioned phase 0 at percentage
0 — the latter is how startRollout really leaves a plan, since it aborts at
the always-throwing mirrored-test start before its phase-0 transition. -/
def phaseInvB (p : RolloutPlan) : Bool :=
  match p.status with
  | .planned => p.currentPhase == 0 && p.currentPercentage == 0
  | .completed => p.currentPercentage == 100
  | _ =>
    (match p.phases[p.currentPhase]? with
     | some phase => p.currentPercentage == phase.percentage
     | none => false) ||
    (p.currentPhase == 0 && p.currentPercentage == 0)

/-- Percentage coherence of every plan the manager can see. -/
def StateInv (s : RMState) : Prop :=
  ∀ rolloutId plan, s.activeRollouts.lookup rolloutId = some plan → phaseInvB plan = true

/-! ## Claim-side definition for the recommendation refinement

The claim about the recommendation says the treatment compared against the
control is the best treatment — the non-control variant with the highest
mean. The next two definitions follow those words (not the source) so the
source behaviour can be compared against them. -/

/-- Best treatment per the claim wording: the non-control variant with the
highest mean value. -/
def bestTreatment (metrics : String → VariantMetrics) (variants : List ABVariant) :
    Option ABVariant :=
  (variants.filter fun v => !v.isControl).foldl
    (fun best v =>
      match best with
      | none => some v
      | some b =>
        if (metrics v.id).averageValue > (metrics b.id).averageValue then some v
        else some b)
    none

/-- Recommendation as the claim words it: inconclusive when not significant,
else winner when the best treatment mean exceeds the control mean, else
rollback. -/
def claimRecommendation (significance : SignificanceTest)
    (metrics : String → VariantMetrics) (test : ABTest) : Recommendation :=
  if ¬ significance.significant then Recommendation.inconclusive
  else
    match test.variants.find? (fun v => v.isControl), bestTreatment metrics test.variants with
    | some controlVariant, some treatment =>
      if (metrics treatment.id).averageValue > (metrics controlVariant.id).averageValue then
        Recommendation.winner
      else Recommendation.rollback
    | _, _ => Recommendation.inconclusive

/-- Discriminator for Except results. -/
def isOkB {ε α : Type} : Except ε α → Bool
  | .ok _ => true
  | .error _ => false

/-! ## Concrete fixtures for witnesses and counterexamples -/

def mkAudience : TargetAudience :=
  { criteria := {}, percentage := 100 }

def mkSafeguards : TestSafeguards :=
  { maxErrorRate := 1 / 10, maxLatencyIncrease := 500, minSuccessRate := 19 / 20,
    monitoringInterval := 5 }

def mkVariant (id : String) (weight : ℚ) (isControl : Bool) : ABVariant :=
  { id := id, name := id, description := id, weight := weight, isControl := isControl }

def mkTest (id : String) (status : TestStatus) (variants : List ABVariant)
    (alloc : AllocationStrategy) : ABTest :=
  { id := id, name := "test", description := "test", status := status,
    variants := variants, targetAudience := mkAudience, allocation := alloc,
    startDate := 0, createdDate := 0, primaryMetric := "conversion",
    secondaryMetrics := [], minimumSampleSize := 1000, confidenceLevel := 19 / 20,
    safeguards := mkSafeguards, rollbackTriggers := [] }

def exDetAlloc : AllocationStrategy := { type := AllocType.deterministic }

def exEnv : RandomEnv :=
  { eligibilityRoll := 0, allocationRoll := 0, gradualRoll := 0, nowMs := 0 }

def exEnv2 : RandomEnv :=
  { eligibilityRoll := 99, allocationRoll := 99, gradualRoll := 99, nowMs := 7 }

def exVariants : List ABVariant := [mkVariant "control" 50 true, mkVariant "v1" 50 false]

def exActiveTest : ABTest := mkTest "t1" TestStatus.active exVariants exDetAlloc

def exPausedTest : ABTest := mkTest "t1" TestStatus.paused exVariants exDetAlloc

def exAssignment : UserAssignment :=
  { userId := "u", testId := "t1", variantId := "v1", assignedAt := 0, isActive := true }

/-- State with an active test and a cached active assignment for the user. -/
def exStickyState : ABState :=
  { activeTests := [("t1", exActiveTest)], userAssignments := [("u", [exAssignment])],
    testEvents := [], userId := "u" }

/-- State with a paused test and a cached active assignment for the user. -/
def exSuspendedState : ABState :=
  { activeTests := [("t1", exPausedTest)], userAssignments := [("u", [exAssignment])],
    testEvents := [], userId := "u" }

def exEmptyABState : ABState :=
  { activeTests := [], userAssignments := [], testEvents := [], userId := "u" }

/-- Experiment config whose two variant weights total 100 but that has no
control variant. -/
def exNoControlCfg : ABTest :=
  mkTest "cfg" TestStatus.draft [mkVariant "a" 50 false, mkVariant "b" 50 false] exDetAlloc

/-- Experiment config whose variant weights total 120. -/
def exBadWeightCfg : ABTest :=
  mkTest "cfg" TestStatus.draft [mkVariant "a" 60 true, mkVariant "b" 60 false] exDetAlloc

def exVariantMetrics (avg : ℚ) : VariantMetrics :=
  { conversionRate := 0, averageValue := avg, standardError := 0,
    confidenceInterval := (0, 0), customMetrics := [] }

/-- Three-variant test: the control, then a weak treatment first, then the
strong treatment. -/
def exThreeVariantTest : ABTest :=
  mkTest "t7" TestStatus.completed
    [mkVariant "control" 40 true, mkVariant "weak" 30 false, mkVariant "strong" 30 false]
    exDetAlloc

/-- Per-variant means for the three-variant test: control 5, weak treatment
3, strong treatment 10. -/
def exThreeVariantMetrics (id : String) : VariantMetrics :=
  if id = "control" then exVariantMetrics 5
  else if id = "strong" then exVariantMetrics 10
  else exVariantMetrics 3

def exSignificant : SignificanceTest :=
  { pValue := 1 / 100, zScore := 3, significant := true, method := SigMethod.welch }

/-! Rollout fixtures. -/

def mkCriteria : PhaseCriteria :=
  { minSuccessRate := 0, maxErrorRate := 1, maxLatencyIncrease := 100000 }

def mkPhase (name : String) (percentage : ℚ) : RolloutPhase :=
  { name := name, percentage := percentage, duration := 24, criteria := mkCriteria,
    audiences := [] }

def exStrategy : RolloutStrategy :=
  { type := RolloutType.gradual, targetAudience := RolloutAudience.all,
    rollbackStrategy := RollbackStrategy.manual }

def zeroRolloutMetrics : RolloutMetrics :=
  { usersAffected := 0, errorRate := 0, successRate := 1, averageLatency := 0,
    userSatisfaction := 0, featureAdoption := 0, rollbacksTriggered := 0,
    phaseTransitions := [] }

def mkPlan (id feature : String) (status : RolloutStatus) (phases : List RolloutPhase)
    (currentPhase : ℕ) (currentPercentage : ℚ) (conds : List RollbackCondition) :
    RolloutPlan :=
  { id := id, name := id, description := id, feature := feature, strategy := exStrategy,
    phases := phases, startDate := 0, estimatedCompletion := 0, status := status,
    currentPhase := currentPhase, currentPercentage := currentPercentage,
    rollbackConditions := conds, metrics := zeroRolloutMetrics }

def mkFlag (id name : String) (enabled : Bool) (pct : ℚ)
    (variants : Option (List FlagVariant)) : FeatureFlag :=
  { id := id, name := name, description := id, enabled := enabled,
    rolloutPercentage := pct, targetAudiences := [], conditions := [],
    variants := variants }

/-- Active plan in phase 0 at 10 percent, one phase of 10 percent, with a
matching feature flag stored under the plan feature id. -/
def exRollbackState : RMState :=
  { activeRollouts := [("r1", mkPlan "r1" "flag1" RolloutStatus.active [mkPhase "p0" 10]
      0 10 [])],
    featureFlags := [("flag1", mkFlag "flag1" "newui" true 10 none)],
    userId := "u" }

/-- Breached warning-only rollback condition: errorRate (in percent) greater
than 5, severity warning. -/
def exWarningCond : RollbackCondition :=
  { metric := "errorRate", threshold := 5, operator := CondOperator.gt,
    duration := 5, severity := Severity.warning }

/-- Critical variant of the same condition. -/
def exCriticalCond : RollbackCondition :=
  { metric := "errorRate", threshold := 5, operator := CondOperator.gt,
    duration := 5, severity := Severity.critical }

/-- Active plan whose only rollback condition carries severity warning. -/
def exWarningState : RMState :=
  { activeRollouts := [("r1", mkPlan "r1" "flag1" RolloutStatus.active [mkPhase "p0" 10]
      0 10 [exWarningCond])],
    featureFlags := [("flag1", mkFlag "flag1" "newui" true 10 none)],
    userId := "u" }

/-- Active plan whose only rollback condition carries severity critical. -/
def exCriticalState : RMState :=
  { activeRollouts := [("r1", mkPlan "r1" "flag1" RolloutStatus.active [mkPhase "p0" 10]
      0 10 [exCriticalCond])],
    featureFlags := [("flag1", mkFlag "flag1" "newui" true 10 none)],
    userId := "u" }

/-- Metrics provider reporting an error rate of 10 (breaching the threshold
of 5) and healthy values otherwise. -/
def exBreachMetrics : String → MetricsReading := fun _ metric =>
  if metric = "errorRate" then 10
  else if metric = "successRate" then 1
  else if metric = "latency" then 100
  else 1

def exFlagVariant : FlagVariant := { id := "v1", name := "v1", weight := 100 }

/-- Enabled flag at 50 percent rollout with a single full-weight variant. -/
def exVariantFlagState : RMState :=
  { activeRollouts := [],
    featureFlags := [("f1", mkFlag "f1" "f" true 50 (some [exFlagVariant]))],
    userId := "u" }

def exEmptyRMState : RMState :=
  { activeRollouts := [], featureFlags := [], userId := "u" }

/-- Plan input for the guarded-sequence witness: three phases of 10, 25 and
100 percent. -/
def exPlanInput : RolloutPlan :=
  mkPlan "r1" "flag1" RolloutStatus.planned
    [mkPhase "p0" 10, mkPhase "p1" 25, mkPhase "p2" 100] 0 0 []

def exGuardedOps : List RolloutOp :=
  [RolloutOp.createPlanOp "r1" exPlanInput, RolloutOp.startOp "r1" 0,
   RolloutOp.monitorOp exBreachMetrics]

/-! ## Helper lemmas -/

theorem lookup_setEntry {α : Type} (k k' : String) (v : α) (m : List (String × α)) :
    (setEntry k v m).lookup k' = if k' = k then some v else m.lookup k' := by
  induction m with
  | nil =>
    by_cases h : k' = k
    · simp [setEntry, List.lookup, h]
    · have hb : (k' == k) = false := by simp [h]
      simp [setEntry, List.lookup, hb, h]
  | cons kv rest ih =>
    by_cases hk : kv.1 = k
    · by_cases h : k' = k
      · simp [setEntry, List.lookup, hk, h]
      · simp only [setEntry, hk, if_pos rfl, List.lookup]
        have hne : (k' == k) = false := by simp [h]
        have hne2 : (k' == kv.1) = false := by simp [hk, h]
        simp [hne, hne2, h]
    · by_cases h : k' = kv.1
      · have hne : (k' == kv.1) = true := by simp [h]
        have hnk : k' ≠ k := fun hh => hk (h ▸ hh)
        simp [setEntry, hk, List.lookup, hne, hnk]
      · have hne : (k' == kv.1) = false := by simp [h]
        simp [setEntry, hk, List.lookup, hne, ih]

theorem lookup_setEntry_self {α : Type} (k : String) (v : α) (m : List (String × α)) :
    (setEntry k v m).lookup k = some v := by
  simp [lookup_setEntry]

theorem lookup_setEntry_ne {α : Type} {k k' : String} (v : α) (m : List (String × α))
    (h : k' ≠ k) : (setEntry k v m).lookup k' = m.lookup k' := by
  simp [lookup_setEntry, h]

/-! ## C10: assignments are invisible while the test is not active -/

/-- C10: for every test whose status is not active (draft, paused or
completed) and for unknown test ids, getAssignment returns null and leaves
the state unchanged — even when a previously recorded active assignment for
that user and test exists, so pausing or completing an experiment suspends
visibility of sticky assignments. -/
theorem inactive_assignment_invisible (env : RandomEnv) (testId : String) (s : ABState)
    (h : ((s.activeTests.lookup testId).all fun t => t.status != TestStatus.active) = true) :
    getAssignment env testId s = (none, s) := by
  unfold getAssignment
  cases hl : s.activeTests.lookup testId with
  | none => rfl
  | some test =>
    rw [hl] at h
    have hne : test.status ≠ TestStatus.active := by simpa using h
    simp [hne]

/-- Witness for C10: a paused test with a cached active assignment still
yields null. -/
theorem inactive_assignment_invisible_witness :
    getAssignment exEnv "t1" exSuspendedState = (none, exSuspendedState) :=
  inactive_assignment_invisible exEnv "t1" exSuspendedState (by rfl)

/-! ## C8: trackEvent drops unassigned events and appends exactly one
otherwise -/

/-- C8: trackEvent always returns normally; with no active assignment for
the caller it leaves the whole state (in particular the event list)
unchanged, with an active assignment it appends exactly one event carrying
that assignment variant id and touches nothing else; in both cases the old
event list is a prefix of the new one, so previously appended events are
never modified. -/
theorem trackEvent_spec (now : ℚ) (testId eventType : String) (eventValue : Option ℚ)
    (metadata : List (String × AttrValue)) (s : ABState) :
    (getUserAssignment s testId = none →
      trackEvent now testId eventType eventValue metadata s = s) ∧
    (∀ a, getUserAssignment s testId = some a →
      (trackEvent now testId eventType eventValue metadata s).testEvents =
        s.testEvents ++
          [{ userId := s.userId, testId := testId, variantId := a.variantId,
             eventType := eventType, eventValue := eventValue, metadata := metadata,
             timestamp := now }] ∧
      (trackEvent now testId eventType eventValue metadata s).activeTests =
        s.activeTests ∧
      (trackEvent now testId eventType eventValue metadata s).userAssignments =
        s.userAssignments) ∧
    s.testEvents <+: (trackEvent now testId eventType eventValue metadata s).testEvents := by
  refine ⟨?_, ?_, ?_⟩
  · intro h
    unfold trackEvent
    rw [h]
  · intro a h
    unfold trackEvent
    rw [h]
    exact ⟨rfl, rfl, rfl⟩
  · unfold trackEvent
    cases h : getUserAssignment s testId with
    | none => exact List.prefix_refl _
    | some a => exact List.prefix_append _ _

/-- Witness for C8: in the sticky fixture the call appends exactly the one
event for the cached variant. -/
theorem trackEvent_spec_witness :
    (trackEvent 5 "t1" "conversion" none [] exStickyState).testEvents =
      exStickyState.testEvents ++
        [{ userId := "u", testId := "t1", variantId := "v1", eventType := "conversion",
           eventValue := none, metadata := [], timestamp := 5 }] :=
  ((trackEvent_spec 5 "t1" "conversion" none [] exStickyState).2.1 exAssignment (by rfl)).1

/-! ## C6: degenerate variant lists give the neutral significance result -/

/-- C6: for a test with fewer than two variants, or with no control variant,
or with no non-control variant, the significance computation returns the
neutral result p = 1, z = 0, not significant (and, being a total function,
never raises). -/
theorem significance_neutral_on_degenerate (sqrtFn expFn : ℚ → ℚ)
    (metrics : String → VariantMetrics) (variants : List ABVariant)
    (h : variants.length < 2 ∨ (∀ v ∈ variants, v.isControl = false) ∨
      (∀ v ∈ variants, v.isControl = true)) :
    performSignificanceTest sqrtFn expFn metrics variants =
      { pValue := 1, zScore := 0, significant := false, method := SigMethod.welch } := by
  have hnone : variants.find? (fun v => v.isControl) = none ∨
      variants.find? (fun v => !v.isControl) = none := by
    rcases h with h | h | h
    · cases variants with
      | nil => exact Or.inl rfl
      | cons v rest =>
        cases rest with
        | nil =>
          cases hv : v.isControl
          · exact Or.inl (by simp [List.find?, hv])
          · exact Or.inr (by simp [List.find?, hv])
        | cons w rest2 =>
          exact absurd h (by simp only [List.length_cons, Nat.not_lt]; omega)
    · exact Or.inl (List.find?_eq_none.mpr fun v hv => by simp [h v hv])
    · exact Or.inr (List.find?_eq_none.mpr fun v hv => by simp [h v hv])
  unfold performSignificanceTest
  rcases hnone with hc | ht
  · rw [hc]
  · rw [ht]
    cases variants.find? (fun v => v.isControl) <;> rfl

/-- Witness for C6: a single control-only variant list yields the neutral
result. -/
theorem significance_neutral_on_degenerate_witness :
    performSignificanceTest (fun q => q) (fun q => q) (fun _ => exVariantMetrics 0)
      [mkVariant "control" 100 true] =
      { pValue := 1, zScore := 0, significant := false, method := SigMethod.welch } :=
  significance_neutral_on_degenerate (fun q => q) (fun q => q) (fun _ => exVariantMetrics 0)
    [mkVariant "control" 100 true] (Or.inl (by decide))

/-! ## C7: the recommendation compares the control with the first
non-control variant -/

/-- Counterexample for C7: in a three-variant test whose best treatment
(mean 10) beats the control (mean 5), the source recommendation is rollback
— it compares the control against the first non-control variant (mean 3) —
while the claim, which compares against the best treatment, demands
winner. -/
theorem recommendation_not_best_treatment_cex :
    generateRecommendation exSignificant exThreeVariantMetrics exThreeVariantTest =
      Recommendation.rollback ∧
    claimRecommendation exSignificant exThreeVariantMetrics exThreeVariantTest =
      Recommendation.winner ∧
    Recommendation.rollback ≠ Recommendation.winner :=
  ⟨rfl, rfl, by decide⟩

/-- C7 amended: the recommendation is inconclusive when not significant;
otherwise the treatment compared against the control is the FIRST variant
not marked control in list order (not the best treatment), and the result is
winner exactly when that variant has a higher mean than the control. -/
theorem recommendation_first_treatment (significance : SignificanceTest)
    (metrics : String → VariantMetrics) (test : ABTest) :
    (significance.significant = false →
      generateRecommendation significance metrics test = Recommendation.inconclusive) ∧
    (∀ c t, significance.significant = true →
      test.variants.find? (fun v => v.isControl) = some c →
      test.variants.find? (fun v => !v.isControl) = some t →
      generateRecommendation significance metrics test =
        if (metrics t.id).averageValue > (metrics c.id).averageValue then
          Recommendation.winner
        else Recommendation.rollback) := by
  constructor
  · intro h
    unfold generateRecommendation
    simp [h]
  · intro c t hs hc ht
    unfold generateRecommendation
    rw [hs, hc, ht]
    simp

/-- Witness for C7 amended: applied to the three-variant fixture, the
comparison uses the first treatment (mean 3 versus control mean 5), giving
rollback. -/
theorem recommendation_first_treatment_witness :
    generateRecommendation exSignificant exThreeVariantMetrics exThreeVariantTest =
      (if (exThreeVariantMetrics (mkVariant "weak" 30 false).id).averageValue >
          (exThreeVariantMetrics (mkVariant "control" 40 true).id).averageValue then
        Recommendation.winner
      else Recommendation.rollback) :=
  (recommendation_first_treatment exSignificant exThreeVariantMetrics
    exThreeVariantTest).2 (mkVariant "control" 40 true) (mkVariant "weak" 30 false)
    rfl rfl rfl

/-! ## C9: only the experiment weight sum is validated at creation -/

theorem validateTestConfig_eq (test : ABTest) :
    validateTestConfig test =
      if 1 / 100 < |test.variants.foldl (fun sum v => sum + v.weight) 0 - 100| then
        Except.error "Variant weights must sum to 100"
      else Except.ok () := rfl

theorem createTest_eq (testId : String) (now : ℚ) (cfg : ABTest) (s : ABState) :
    createTest testId now cfg s =
      if 1 / 100 < |cfg.variants.foldl (fun sum v => sum + v.weight) 0 - 100| then
        Except.error "Variant weights must sum to 100"
      else Except.ok { s with activeTests := setEntry testId { cfg with id := testId, status := TestStatus.draft, createdDate := now } s.activeTests } := by
  unfold createTest
  dsimp only
  rw [validateTestConfig_eq]
  dsimp only
  by_cases h : 1 / 100 < |List.foldl (fun sum v => sum + v.weight) 0 cfg.variants - 100|
  · rw [if_pos h, if_pos h]
  · rw [if_neg h, if_neg h]

theorem missing_control_created_ok_cex :
    isOkB (createTest "t1" 0 exNoControlCfg exEmptyABState) = true ∧
    (exNoControlCfg.variants.find? fun v => v.isControl) = none := by
  constructor
  · rw [createTest_eq, if_neg (by norm_num [exNoControlCfg, mkTest, mkVariant, List.foldl])]
    rfl
  · rfl

theorem creation_validation_weights_only (testId : String) (now : ℚ) (cfg : ABTest)
    (s : ABState) :
    (1 / 100 < |cfg.variants.foldl (fun sum v => sum + v.weight) 0 - 100| →
      createTest testId now cfg s = Except.error "Variant weights must sum to 100") ∧
    (|cfg.variants.foldl (fun sum v => sum + v.weight) 0 - 100| ≤ 1 / 100 →
      isOkB (createTest testId now cfg s) = true) ∧
    (∀ flagId flag rs, (createFeatureFlag flagId flag rs).featureFlags.lookup flagId =
      some { flag with id := flagId }) ∧
    (∀ rolloutId plan rs,
      ((createRolloutPlan rolloutId plan rs).activeRollouts.lookup rolloutId).map
        RolloutPlan.status = some RolloutStatus.planned) := by
  refine ⟨?_, ?_, ?_, ?_⟩
  · intro h
    rw [createTest_eq, if_pos h]
  · intro h
    rw [createTest_eq, if_neg (not_lt.mpr h)]
    rfl
  · intro flagId flag rs
    unfold createFeatureFlag
    exact lookup_setEntry_self flagId _ rs.featureFlags
  · intro rolloutId plan rs
    unfold createRolloutPlan
    rw [lookup_setEntry_self]
    rfl

theorem creation_validation_weights_only_witness :
    createTest "t1" 0 exBadWeightCfg exEmptyABState =
      Except.error "Variant weights must sum to 100" :=
  (creation_validation_weights_only "t1" 0 exBadWeightCfg exEmptyABState).1
    (by norm_num [exBadWeightCfg, mkTest, mkVariant, List.foldl])

/-! ## C4: assignments are sticky while the experiment stays active -/

theorem getAssignment_userId (env : RandomEnv) (testId : String) (s : ABState) :
    (getAssignment env testId s).2.userId = s.userId := by
  unfold getAssignment
  split
  · rfl
  · split
    · rfl
    · split
      · rfl
      · split
        · rfl
        · rfl

theorem getUserAssignment_record (now : ℚ) (s : ABState) (testId variantId : String)
    (h : getUserAssignment s testId = none) :
    getUserAssignment (recordAssignment now s testId variantId) testId =
      some { userId := s.userId, testId := testId, variantId := variantId,
             assignedAt := now, isActive := true } := by
  unfold getUserAssignment recordAssignment at *
  dsimp only
  rw [lookup_setEntry_self]
  simp only [Option.getD_some]
  rw [List.find?_append, h]
  simp [List.find?]

theorem getAssignment_cached (env : RandomEnv) (testId : String) (s : ABState) (v : String)
    (h : (getAssignment env testId s).1 = some v) :
    ∃ a : UserAssignment,
      getUserAssignment (getAssignment env testId s).2 testId = some a ∧
      a.variantId = v := by
  unfold getAssignment at *
  cases hl : s.activeTests.lookup testId with
  | none =>
    rw [hl] at h
    simp at h
  | some test =>
    rw [hl] at h
    dsimp only at h ⊢
    by_cases hst : test.status ≠ TestStatus.active
    · rw [if_pos hst] at h
      simp at h
    · rw [if_neg hst] at h ⊢
      cases hu : getUserAssignment s testId with
      | some a =>
        rw [hu] at h ⊢
        dsimp only at h ⊢
        refine ⟨a, rfl, ?_⟩
        simpa using h
      | none =>
        rw [hu] at h
        dsimp only at h ⊢
        cases he : isUserEligible env test with
        | false =>
          simp [he] at h
        | true =>
          rw [he] at h
          simp only [Bool.not_true] at h ⊢
          rw [if_neg (by simp)] at h ⊢
          dsimp only at h ⊢
          refine ⟨_, getUserAssignment_record env.nowMs s testId _ hu, ?_⟩
          simpa using h

/-- C4: assignments are sticky under every allocation strategy. Whenever a
call returns a variant for an active test (cached or freshly recorded), then
every later call — with arbitrary fresh randomness, from any state in which
the assignment store and user are unchanged and the test is still active —
returns the same variant without re-running eligibility or allocation and
without modifying the state, until the experiment leaves the active status
or the assignment store is changed. -/
theorem assignment_sticky (env₁ env₂ : RandomEnv) (testId : String) (s s₂ : ABState)
    (v : String)
    (h1 : (getAssignment env₁ testId s).1 = some v)
    (h2 : s₂.userId = s.userId)
    (h3 : s₂.userAssignments = (getAssignment env₁ testId s).2.userAssignments)
    (h4 : (s₂.activeTests.lookup testId).map ABTest.status = some TestStatus.active) :
    getAssignment env₂ testId s₂ = (some v, s₂) := by
  obtain ⟨a, ha, hav⟩ := getAssignment_cached env₁ testId s v h1
  have hu2 : getUserAssignment s₂ testId = some a := by
    unfold getUserAssignment at ha ⊢
    rw [h2, h3]
    rw [getAssignment_userId env₁ testId s] at ha
    exact ha
  cases hl : s₂.activeTests.lookup testId with
  | none => rw [hl] at h4; exact absurd h4 (by simp)
  | some test₂ =>
    have hst : test₂.status = TestStatus.active := by
      rw [hl] at h4
      simpa using h4
    unfold getAssignment
    rw [hl]
    dsimp only
    rw [if_neg (by simp [hst]), hu2]
    dsimp only
    rw [hav]

/-- Witness for C4: the sticky fixture returns the cached variant once more
under different randomness. -/
theorem assignment_sticky_witness :
    getAssignment exEnv2 "t1" ((getAssignment exEnv "t1" exStickyState).2) =
      (some "v1", (getAssignment exEnv "t1" exStickyState).2) :=
  assignment_sticky exEnv exEnv2 "t1" exStickyState
    ((getAssignment exEnv "t1" exStickyState).2) "v1" rfl rfl rfl rfl

/-! ## C5: determinism of the deterministic and flag-variant paths -/

/-- Counterexample for C5: two calls to getFeatureVariant for the same flag,
user and context — differing only in the fresh rollout roll each call draws
— return some variant and null respectively, because each call re-rolls
against the 50 percent rollout gate. Rolls of 10 and 90 are both possible
values of Math.random() times 100. -/
theorem feature_variant_two_runs_differ_cex :
    getFeatureVariant 10 exVariantFlagState "f" none = some "v1" ∧
    getFeatureVariant 90 exVariantFlagState "f" none = none ∧
    some "v1" ≠ (none : Option String) := by
  refine ⟨?_, by rfl, by simp⟩
  unfold getFeatureVariant
  rw [show findFlagByName exVariantFlagState.featureFlags "f" =
      some (mkFlag "f1" "f" true 50 (some [exFlagVariant])) from rfl]
  dsimp only [mkFlag]
  rw [show isFeatureEnabled 10 exVariantFlagState "f" none = true from rfl]
  have hhash : simpleHash (exVariantFlagState.userId ++ "f") = 3729 := by decide
  rw [hhash]
  norm_num [walkFlagVariants, exFlagVariant]

/-- C5 amended: the deterministic allocation path reads no randomness — for
a test with deterministic allocation, two calls with arbitrary different
random draws return the same variant. The flag-variant path is deterministic
only in its hash-based weighted pick: two calls to getFeatureVariant agree
whenever their fresh rollout rolls fall on the same side of the flag
rolloutPercentage (in particular always when the percentage is 0 or 100),
and may differ otherwise. -/
theorem deterministic_paths :
    (∀ (userId : String) (env₁ env₂ : RandomEnv) (test : ABTest),
      test.allocation.type = AllocType.deterministic →
      assignUserToVariant userId env₁ test = assignUserToVariant userId env₂ test) ∧
    (∀ (s : RMState) (flagName : String) (ctx : Option (List (String × AttrValue)))
      (roll₁ roll₂ : ℚ),
      ((findFlagByName s.featureFlags flagName).all fun flag =>
        decide (roll₁ > flag.rolloutPercentage) == decide (roll₂ > flag.rolloutPercentage)) =
          true →
      getFeatureVariant roll₁ s flagName ctx = getFeatureVariant roll₂ s flagName ctx) := by
  constructor
  · intro userId env₁ env₂ test h
    unfold assignUserToVariant
    rw [h]
  · intro s flagName ctx roll₁ roll₂ h
    cases hf : findFlagByName s.featureFlags flagName with
    | none =>
      unfold getFeatureVariant
      rw [hf]
    | some flag =>
      rw [hf] at h
      have hiff : roll₁ > flag.rolloutPercentage ↔ roll₂ > flag.rolloutPercentage := by
        simpa [decide_eq_decide] using h
      have hen : isFeatureEnabled roll₁ s flagName ctx =
          isFeatureEnabled roll₂ s flagName ctx := by
        unfold isFeatureEnabled
        rw [hf]
        dsimp only
        simp only [hiff]
      unfold getFeatureVariant
      rw [hf]
      dsimp only
      rw [hen]

/-- Witness for C5 amended: the deterministic path gives the same variant
under two different environments, and two rolls on the same side of the 50
percent gate give the same flag variant. -/
theorem deterministic_paths_witness :
    assignUserToVariant "u" exEnv exActiveTest = assignUserToVariant "u" exEnv2 exActiveTest ∧
    getFeatureVariant 10 exVariantFlagState "f" none =
      getFeatureVariant 20 exVariantFlagState "f" none :=
  ⟨deterministic_paths.1 "u" exEnv exEnv2 exActiveTest rfl,
   deterministic_paths.2 exVariantFlagState "f" none 10 20 (by rfl)⟩

/-! ## C1: rollback disables the flag but is not terminal -/

/-- Counterexample for C1: after rollbackRollout the plan status is
rolled_back, but a subsequent resumeRollout — which performs no status check
— sets the status back to active instead of being a no-op. -/
theorem rollback_not_terminal_cex :
    ((rollbackRollout "r1" "metrics degraded" exRollbackState).activeRollouts.lookup
      "r1").map RolloutPlan.status = some RolloutStatus.rolled_back ∧
    ((resumeRollout "r1" (rollbackRollout "r1" "metrics degraded"
      exRollbackState)).activeRollouts.lookup "r1").map RolloutPlan.status =
      some RolloutStatus.active ∧
    RolloutStatus.active ≠ RolloutStatus.rolled_back := by
  refine ⟨rfl, rfl, by simp⟩

/-- C1 amended: for every plan known to the manager, rollbackRollout leaves
the plan with status rolled_back and, when a flag is stored under the plan
feature id, disables it and zeroes its rollout percentage; however rollback
is not terminal — a subsequent resumeRollout sets the status back to active
(while leaving the flags untouched), because resumeRollout checks no
status. -/
theorem rollback_disables_flag_but_resume_reactivates (s : RMState)
    (rolloutId reason : String) (plan : RolloutPlan)
    (h : s.activeRollouts.lookup rolloutId = some plan) :
    ((rollbackRollout rolloutId reason s).activeRollouts.lookup rolloutId).map
      RolloutPlan.status = some RolloutStatus.rolled_back ∧
    (∀ flag, s.featureFlags.lookup plan.feature = some flag →
      (rollbackRollout rolloutId reason s).featureFlags.lookup plan.feature =
        some { flag with enabled := false, rolloutPercentage := 0 }) ∧
    ((resumeRollout rolloutId (rollbackRollout rolloutId reason s)).activeRollouts.lookup
      rolloutId).map RolloutPlan.status = some RolloutStatus.active ∧
    (resumeRollout rolloutId (rollbackRollout rolloutId reason s)).featureFlags =
      (rollbackRollout rolloutId reason s).featureFlags := by
  have hroll : ((rollbackRollout rolloutId reason s).activeRollouts.lookup rolloutId).map
      RolloutPlan.status = some RolloutStatus.rolled_back := by
    unfold rollbackRollout
    rw [h]
    dsimp only
    cases hf : s.featureFlags.lookup plan.feature with
    | none =>
      dsimp only
      rw [lookup_setEntry_self]
      rfl
    | some featureFlag =>
      dsimp only
      rw [lookup_setEntry_self]
      rfl
  refine ⟨hroll, ?_, ?_, ?_⟩
  · intro flag hflag
    unfold rollbackRollout
    rw [h]
    dsimp only
    rw [hflag]
    dsimp only
    rw [lookup_setEntry_self]
  · cases hr : (rollbackRollout rolloutId reason s).activeRollouts.lookup rolloutId with
    | none => rw [hr] at hroll; exact absurd hroll (by simp)
    | some plan' =>
      unfold resumeRollout
      rw [hr]
      dsimp only
      rw [lookup_setEntry_self]
      rw [hr] at hroll
      have : plan'.status = RolloutStatus.rolled_back := by simpa using hroll
      rfl
  · unfold resumeRollout
    cases hr : (rollbackRollout rolloutId reason s).activeRollouts.lookup rolloutId with
    | none => rfl
    | some plan' => rfl

/-- Witness for C1 amended: rolling back the fixture plan disables and
zeroes its feature flag. -/
theorem rollback_disables_flag_witness :
    (rollbackRollout "r1" "bad" exRollbackState).featureFlags.lookup "flag1" =
      some { mkFlag "flag1" "newui" true 10 none with
        enabled := false, rolloutPercentage := 0 } :=
  (rollback_disables_flag_but_resume_reactivates exRollbackState "r1" "bad"
    (mkPlan "r1" "flag1" RolloutStatus.active [mkPhase "p0" 10] 0 10 []) rfl).2.1
    (mkFlag "flag1" "newui" true 10 none) rfl

/-! ## C3: the Safety Monitor ignores severity when rolling back -/

/-- Counterexample for C3: a plan whose only rollback condition carries
severity warning is rolled back by the periodic monitor pass when that
condition is breached, although the claim says the monitor only rolls back
on critical breaches. -/
theorem monitor_rolls_back_on_warning_cex :
    (exWarningState.activeRollouts.lookup "r1").map
      (fun p => p.rollbackConditions.all fun c => c.severity == Severity.warning) =
      some true ∧
    ((checkActiveRollouts exBreachMetrics exWarningState).activeRollouts.lookup "r1").map
      RolloutPlan.status = some RolloutStatus.rolled_back :=
  ⟨rfl, rfl⟩

/-- C3 amended: the periodic Safety Monitor pass rolls an active plan back
exactly when SOME rollback condition is breached, regardless of severity;
only the phase-evaluation path restricts forced rollback to critical
breaches — when the phase criteria fail and no critical condition is
breached, the plan is paused for manual review rather than rolled back. -/
theorem monitor_rollback_severity_blind :
    (∀ (metricsOf : String → MetricsReading) (rolloutId : String) (s : RMState)
      (plan : RolloutPlan),
      s.activeRollouts.lookup rolloutId = some plan →
      plan.status = RolloutStatus.active →
      (((checkRollout metricsOf rolloutId s).activeRollouts.lookup rolloutId).map
        RolloutPlan.status = some RolloutStatus.rolled_back ↔
      plan.rollbackConditions.any
        (fun c => evaluateRollbackCondition c (metricsOf rolloutId)) = true)) ∧
    (∀ (now : ℚ) (rolloutId : String) (i : ℕ) (m : MetricsReading) (s : RMState)
      (plan : RolloutPlan) (phase : RolloutPhase),
      s.activeRollouts.lookup rolloutId = some plan →
      plan.status = RolloutStatus.active →
      plan.phases[i]? = some phase →
      evaluatePhaseCriteria phase.criteria m = false →
      (plan.rollbackConditions.all fun c =>
        !(c.severity == Severity.critical && evaluateRollbackCondition c m)) = true →
      ((evaluatePhaseTransition now rolloutId i m s).activeRollouts.lookup rolloutId).map
        RolloutPlan.status = some RolloutStatus.paused) := by
  constructor
  · intro metricsOf rolloutId s plan h hact
    unfold checkRollout
    rw [h]
    dsimp only
    rw [if_neg (by simp [hact])]
    cases hfind : plan.rollbackConditions.find?
        (fun c => evaluateRollbackCondition c (metricsOf rolloutId)) with
    | some c =>
      dsimp only
      constructor
      · intro _
        have hp := List.find?_some hfind
        exact List.any_eq_true.mpr ⟨c, List.mem_of_find?_eq_some hfind, hp⟩
      · intro _
        unfold rollbackRollout
        rw [lookup_setEntry_self]
        dsimp only
        cases hf : s.featureFlags.lookup
            ({ plan with metrics := assignMetrics plan.metrics (metricsOf rolloutId) }
              : RolloutPlan).feature with
        | none =>
          dsimp only
          rw [lookup_setEntry_self]
          rfl
        | some featureFlag =>
          dsimp only
          rw [lookup_setEntry_self]
          rfl
    | none =>
      dsimp only
      rw [lookup_setEntry_self]
      constructor
      · intro hcontra
        have : plan.status = RolloutStatus.rolled_back := by simpa using hcontra
        rw [hact] at this
        exact absurd this (by simp)
      · intro hany
        obtain ⟨c, hc, hpc⟩ := List.any_eq_true.mp hany
        exact absurd hpc (by simpa using List.find?_eq_none.mp hfind c hc)
  · intro now rolloutId i m s plan phase h hact hphase hcrit hno
    have hstr : shouldTriggerRollback plan m = false := by
      unfold shouldTriggerRollback
      rw [List.any_eq_false]
      intro c hc
      have hcb := List.all_eq_true.mp hno c hc
      simp at hcb ⊢
      tauto
    unfold evaluatePhaseTransition
    rw [h]
    dsimp only
    rw [if_neg (by simp [hact]), hphase]
    dsimp only
    rw [hcrit]
    rw [if_neg (by simp)]
    rw [hstr]
    rw [if_neg (by simp)]
    unfold pauseRollout
    rw [h]
    dsimp only
    rw [lookup_setEntry_self]
    rfl

/-- Witness for C3 amended: the monitor pass rolls back the fixture plan
with a breached critical condition. -/
theorem monitor_rollback_severity_blind_witness :
    ((checkRollout exBreachMetrics "r1" exCriticalState).activeRollouts.lookup "r1").map
      RolloutPlan.status = some RolloutStatus.rolled_back :=
  (monitor_rollback_severity_blind.1 exBreachMetrics "r1" exCriticalState
    (mkPlan "r1" "flag1" RolloutStatus.active [mkPhase "p0" 10] 0 10 [exCriticalCond])
    rfl rfl).mpr (by rfl)

/-! ## C2: the current-percentage invariant -/

/-- Counterexample for C2: rolling back the fixture plan (active in a 10
percent phase) leaves currentPercentage at 10, not at the 0 the claim
demands for rolled_back plans — rollbackRollout zeroes only the feature
flag percentage. -/
theorem rolledback_percentage_not_zero_cex :
    ((rollbackRollout "r1" "bad" exRollbackState).activeRollouts.lookup "r1").map
      RolloutPlan.status = some RolloutStatus.rolled_back ∧
    ((rollbackRollout "r1" "bad" exRollbackState).activeRollouts.lookup "r1").map
      RolloutPlan.currentPercentage = some 10 ∧
    (10 : ℚ) ≠ 0 :=
  ⟨rfl, rfl, by norm_num⟩

theorem phaseInvB_metrics (p : RolloutPlan) (m : RolloutMetrics) :
    phaseInvB { p with metrics := m } = phaseInvB p := rfl

theorem phaseInvB_of_not_pc {p : RolloutPlan} (h1 : p.status ≠ RolloutStatus.planned)
    (h2 : p.status ≠ RolloutStatus.completed) :
    phaseInvB p = ((match p.phases[p.currentPhase]? with
      | some phase => p.currentPercentage == phase.percentage
      | none => false) ||
      (p.currentPhase == 0 && p.currentPercentage == 0)) := by
  unfold phaseInvB
  cases hs : p.status with
  | planned => exact absurd hs h1
  | completed => exact absurd hs h2
  | active => rfl
  | paused => rfl
  | rolled_back => rfl

theorem phaseInvB_retarget {p : RolloutPlan} (st : RolloutStatus) (m : RolloutMetrics)
    (h1 : p.status ≠ RolloutStatus.planned) (h2 : p.status ≠ RolloutStatus.completed)
    (h3 : st ≠ RolloutStatus.planned) (h4 : st ≠ RolloutStatus.completed)
    (hp : phaseInvB p = true) :
    phaseInvB { p with status := st, metrics := m } = true := by
  rw [phaseInvB_of_not_pc h3 h4]
  rw [phaseInvB_of_not_pc h1 h2] at hp
  exact hp

theorem phaseInvB_intro {p : RolloutPlan} (h1 : p.status ≠ RolloutStatus.planned)
    (h2 : p.status ≠ RolloutStatus.completed) {phase : RolloutPhase}
    (hph : p.phases[p.currentPhase]? = some phase)
    (hpct : p.currentPercentage = phase.percentage) : phaseInvB p = true := by
  rw [phaseInvB_of_not_pc h1 h2, hph]
  simp [hpct]

theorem phaseInvB_intro_zero {p : RolloutPlan} (h1 : p.status ≠ RolloutStatus.planned)
    (h2 : p.status ≠ RolloutStatus.completed) (hph : p.currentPhase = 0)
    (hpct : p.currentPercentage = 0) : phaseInvB p = true := by
  rw [phaseInvB_of_not_pc h1 h2]
  simp [hph, hpct]

theorem StateInv_setEntry {s : RMState} {rolloutId : String} {p : RolloutPlan}
    (hOther : ∀ id' q, s.activeRollouts.lookup id' = some q → id' ≠ rolloutId →
      phaseInvB q = true)
    (hp : phaseInvB p = true) :
    StateInv { s with activeRollouts := setEntry rolloutId p s.activeRollouts } := by
  intro id' q hq
  rw [lookup_setEntry] at hq
  by_cases hid : id' = rolloutId
  · rw [if_pos hid] at hq
    cases hq
    exact hp
  · rw [if_neg hid] at hq
    exact hOther id' q hq hid

theorem StateInv_of_none {s : RMState} {rolloutId : String}
    (hl : s.activeRollouts.lookup rolloutId = none)
    (hOther : ∀ id' q, s.activeRollouts.lookup id' = some q → id' ≠ rolloutId →
      phaseInvB q = true) :
    StateInv s := by
  intro id' q hq
  by_cases hid : id' = rolloutId
  · rw [hid, hl] at hq
    exact absurd hq (by simp)
  · exact hOther id' q hq hid

theorem completeRollout_inv (now : ℚ) (rolloutId : String) (s : RMState)
    (hOther : ∀ id' q, s.activeRollouts.lookup id' = some q → id' ≠ rolloutId →
      phaseInvB q = true) :
    StateInv (completeRollout now rolloutId s) := by
  unfold completeRollout
  cases hl : s.activeRollouts.lookup rolloutId with
  | none => exact StateInv_of_none hl hOther
  | some plan =>
    dsimp only
    cases hf : s.featureFlags.lookup plan.feature with
    | none =>
      apply StateInv_setEntry hOther
      simp [phaseInvB]
    | some featureFlag =>
      apply StateInv_setEntry hOther
      simp [phaseInvB]

theorem transitionToPhase_inv (now : ℚ) (rolloutId : String) (i : ℕ) (s : RMState)
    (hOther : ∀ id' q, s.activeRollouts.lookup id' = some q → id' ≠ rolloutId →
      phaseInvB q = true)
    (hstat : ∀ p, s.activeRollouts.lookup rolloutId = some p →
      p.status ≠ RolloutStatus.planned ∧ p.status ≠ RolloutStatus.completed) :
    StateInv (transitionToPhase now rolloutId i s) := by
  unfold transitionToPhase
  cases hl : s.activeRollouts.lookup rolloutId with
  | none => exact StateInv_of_none hl hOther
  | some plan =>
    dsimp only
    cases hph : plan.phases[i]? with
    | none => exact completeRollout_inv now rolloutId s hOther
    | some phase =>
      dsimp only
      cases hf : s.featureFlags.lookup plan.feature with
      | none =>
        apply StateInv_setEntry hOther
        apply phaseInvB_intro
        · exact (hstat plan hl).1
        · exact (hstat plan hl).2
        · exact hph
        · rfl
      | some featureFlag =>
        apply StateInv_setEntry hOther
        apply phaseInvB_intro
        · exact (hstat plan hl).1
        · exact (hstat plan hl).2
        · exact hph
        · rfl

theorem pauseRollout_inv (rolloutId : String) (s : RMState) (hInv : StateInv s)
    (hstat : ∀ p, s.activeRollouts.lookup rolloutId = some p →
      p.status ≠ RolloutStatus.planned ∧ p.status ≠ RolloutStatus.completed) :
    StateInv (pauseRollout rolloutId s) := by
  unfold pauseRollout
  cases hl : s.activeRollouts.lookup rolloutId with
  | none => exact hInv
  | some plan =>
    apply StateInv_setEntry (fun id' q hq _ => hInv id' q hq)
    have := phaseInvB_retarget RolloutStatus.paused plan.metrics (hstat plan hl).1
      (hstat plan hl).2 (by simp) (by simp) (hInv rolloutId plan hl)
    exact this

theorem resumeRollout_inv (rolloutId : String) (s : RMState) (hInv : StateInv s)
    (hstat : ∀ p, s.activeRollouts.lookup rolloutId = some p →
      p.status ≠ RolloutStatus.planned ∧ p.status ≠ RolloutStatus.completed) :
    StateInv (resumeRollout rolloutId s) := by
  unfold resumeRollout
  cases hl : s.activeRollouts.lookup rolloutId with
  | none => exact hInv
  | some plan =>
    apply StateInv_setEntry (fun id' q hq _ => hInv id' q hq)
    have := phaseInvB_retarget RolloutStatus.active plan.metrics (hstat plan hl).1
      (hstat plan hl).2 (by simp) (by simp) (hInv rolloutId plan hl)
    exact this

theorem rollbackRollout_inv (rolloutId reason : String) (s : RMState) (hInv : StateInv s)
    (hstat : ∀ p, s.activeRollouts.lookup rolloutId = some p →
      p.status ≠ RolloutStatus.planned ∧ p.status ≠ RolloutStatus.completed) :
    StateInv (rollbackRollout rolloutId reason s) := by
  unfold rollbackRollout
  cases hl : s.activeRollouts.lookup rolloutId with
  | none => exact hInv
  | some plan =>
    dsimp only
    have hp := phaseInvB_retarget RolloutStatus.rolled_back
      { plan.metrics with rollbacksTriggered := plan.metrics.rollbacksTriggered + 1 }
      (hstat plan hl).1 (hstat plan hl).2 (by simp) (by simp) (hInv rolloutId plan hl)
    cases hf : s.featureFlags.lookup plan.feature with
    | none => exact StateInv_setEntry (fun id' q hq _ => hInv id' q hq) hp
    | some featureFlag => exact StateInv_setEntry (fun id' q hq _ => hInv id' q hq) hp

theorem checkRollout_inv (metricsOf : String → MetricsReading) (rolloutId : String)
    (s : RMState) (hInv : StateInv s) : StateInv (checkRollout metricsOf rolloutId s) := by
  unfold checkRollout
  cases hl : s.activeRollouts.lookup rolloutId with
  | none => exact hInv
  | some plan =>
    dsimp only
    by_cases hact : plan.status ≠ RolloutStatus.active
    · rw [if_pos hact]
      exact hInv
    · rw [if_neg hact]
      have hact' : plan.status = RolloutStatus.active := not_not.mp hact
      have hp : phaseInvB { plan with
          metrics := assignMetrics plan.metrics (metricsOf rolloutId) } = true := by
        rw [phaseInvB_metrics]
        exact hInv rolloutId plan hl
      have hInv' : StateInv { s with activeRollouts := (setEntry rolloutId
          { plan with metrics := assignMetrics plan.metrics (metricsOf rolloutId) }
          s.activeRollouts) } :=
        StateInv_setEntry (fun id' q hq _ => hInv id' q hq) hp
      cases hfind : plan.rollbackConditions.find?
          (fun condition => evaluateRollbackCondition condition (metricsOf rolloutId)) with
      | none => exact hInv'
      | some condition =>
        apply rollbackRollout_inv _ _ _ hInv'
        intro p hp'
        rw [lookup_setEntry_self] at hp'
        cases hp'
        constructor
        · simp [hact']
        · simp [hact']

theorem checkActiveRolloutsFrom_inv (metricsOf : String → MetricsReading)
    (ids : List String) (s : RMState) (hInv : StateInv s) :
    StateInv (checkActiveRolloutsFrom metricsOf ids s) := by
  induction ids generalizing s with
  | nil => exact hInv
  | cons rolloutId rest ih =>
    unfold checkActiveRolloutsFrom
    dsimp only
    by_cases hb : monitorBreached metricsOf rolloutId s = true
    · rw [if_pos hb]
      exact checkRollout_inv metricsOf rolloutId s hInv
    · rw [if_neg hb]
      exact ih _ (checkRollout_inv metricsOf rolloutId s hInv)

theorem startRollout_inv (now : ℚ) (rolloutId : String) (s : RMState)
    (hInv : StateInv s)
    (hguard : ∀ p, s.activeRollouts.lookup rolloutId = some p →
      p.status = RolloutStatus.planned) :
    StateInv (startRollout now rolloutId s) := by
  unfold startRollout
  cases hl : s.activeRollouts.lookup rolloutId with
  | none => exact hInv
  | some plan =>
    have hinv0 := hInv rolloutId plan hl
    unfold phaseInvB at hinv0
    rw [hguard plan hl] at hinv0
    dsimp only at hinv0
    simp only [Bool.and_eq_true, beq_iff_eq] at hinv0
    dsimp only
    apply StateInv_setEntry (fun id' q hq _ => hInv id' q hq)
    apply phaseInvB_intro_zero
    · simp
    · simp
    · exact hinv0.1
    · exact hinv0.2

theorem evaluatePhaseTransition_inv (now : ℚ) (rolloutId : String) (i : ℕ)
    (m : MetricsReading) (s : RMState) (hInv : StateInv s) :
    StateInv (evaluatePhaseTransition now rolloutId i m s) := by
  unfold evaluatePhaseTransition
  cases hl : s.activeRollouts.lookup rolloutId with
  | none => exact hInv
  | some plan =>
    dsimp only
    by_cases hact : plan.status ≠ RolloutStatus.active
    · rw [if_pos hact]
      exact hInv
    · rw [if_neg hact]
      have hact' : plan.status = RolloutStatus.active := not_not.mp hact
      have hstat : ∀ p, s.activeRollouts.lookup rolloutId = some p →
          p.status ≠ RolloutStatus.planned ∧ p.status ≠ RolloutStatus.completed := by
        intro p hp'
        rw [hl] at hp'
        cases hp'
        constructor
        · simp [hact']
        · simp [hact']
      cases hph : plan.phases[i]? with
      | none => exact hInv
      | some phase =>
        dsimp only
        by_cases hc : evaluatePhaseCriteria phase.criteria m = true
        · rw [if_pos hc]
          exact transitionToPhase_inv now rolloutId (i + 1) s
            (fun id' q hq _ => hInv id' q hq) hstat
        · rw [if_neg hc]
          by_cases hs : shouldTriggerRollback plan m = true
          · rw [if_pos hs]
            exact rollbackRollout_inv rolloutId "Phase criteria not met" s hInv hstat
          · rw [if_neg hs]
            exact pauseRollout_inv rolloutId s hInv hstat

theorem applyOp_inv (s : RMState) (op : RolloutOp) (hInv : StateInv s)
    (hG : guardedB s op = true) : StateInv (applyOp s op) := by
  cases op with
  | createPlanOp rolloutId plan =>
    apply StateInv_setEntry (fun id' q hq _ => hInv id' q hq)
    simp [phaseInvB]
  | createFlagOp flagId flag => exact hInv
  | startOp rolloutId now =>
    apply startRollout_inv now rolloutId s hInv
    intro p hp
    unfold guardedB at hG
    dsimp only at hG
    rw [hp] at hG
    simpa using hG
  | pauseOp rolloutId =>
    apply pauseRollout_inv rolloutId s hInv
    intro p hp
    unfold guardedB at hG
    dsimp only at hG
    rw [hp] at hG
    have : p.status = RolloutStatus.active := by simpa using hG
    constructor
    · simp [this]
    · simp [this]
  | resumeOp rolloutId =>
    apply resumeRollout_inv rolloutId s hInv
    intro p hp
    unfold guardedB at hG
    dsimp only at hG
    rw [hp] at hG
    have : p.status = RolloutStatus.paused := by simpa using hG
    constructor
    · simp [this]
    · simp [this]
  | rollbackOp rolloutId reason =>
    apply rollbackRollout_inv rolloutId reason s hInv
    intro p hp
    unfold guardedB at hG
    dsimp only at hG
    rw [hp] at hG
    have : p.status = RolloutStatus.active ∨ p.status = RolloutStatus.paused := by
      simpa using hG
    rcases this with h | h
    · exact ⟨by simp [h], by simp [h]⟩
    · exact ⟨by simp [h], by simp [h]⟩
  | evalPhaseOp rolloutId now i m =>
    exact evaluatePhaseTransition_inv now rolloutId i m s hInv
  | monitorOp metricsOf => exact checkActiveRolloutsFrom_inv metricsOf _ s hInv

/-- C2 amended: rollbackRollout never touches currentPhase or
currentPercentage — a rolled back plan KEEPS its previous percentage instead
of dropping to 0 (only the feature flag is zeroed) — and, further,
startRollout never reaches its phase-0 transition, because the mirrored
A/B test is stored under a generated id while startTest looks up the
rollout- key and always throws: a started plan only flips to active (with
the start time stamped), keeping currentPhase 0 and currentPercentage 0
whatever phases[0] prescribes and leaving the flags untouched. The invariant
that does hold, for every start state whose plans all satisfy phaseInvB and
every operation sequence in which start, pause, resume and rollback fire
only from the lifecycle statuses the state machine intends: planned plans
sit at phase 0 and percentage 0; completed plans carry 100; active, paused
and rolled back plans carry either the percentage of the phase at
currentPhase or the untransitioned phase 0 at percentage 0. -/
theorem phase_percentage_guarded_invariant :
    (∀ (now : ℚ) (rolloutId : String) (s : RMState) (plan : RolloutPlan),
      s.activeRollouts.lookup rolloutId = some plan →
      (startRollout now rolloutId s).activeRollouts.lookup rolloutId =
        some { plan with status := RolloutStatus.active, startDate := now } ∧
      (startRollout now rolloutId s).featureFlags = s.featureFlags) ∧
    (∀ (ops : List RolloutOp) (s : RMState), StateInv s → GuardedSeq s ops →
      StateInv (ops.foldl applyOp s)) := by
  constructor
  · intro now rolloutId s plan h
    unfold startRollout
    rw [h]
    dsimp only
    exact ⟨lookup_setEntry_self rolloutId _ s.activeRollouts, rfl⟩
  · intro ops
    induction ops with
    | nil => exact fun s hInv _ => hInv
    | cons op rest ih =>
      intro s hInv hSeq
      obtain ⟨hg, hrest⟩ := hSeq
      exact ih (applyOp s op) (applyOp_inv s op hInv hg) hrest

/-- Witness for C2 amended: starting the freshly created three-phase plan
(phase 0 at 10 percent) leaves it active at currentPercentage 0, and the
create, start and monitor sequence from the empty manager state preserves
the invariant. -/
theorem phase_percentage_guarded_invariant_witness :
    ((startRollout 0 "r1" (createRolloutPlan "r1" exPlanInput
      exEmptyRMState)).activeRollouts.lookup "r1").map RolloutPlan.currentPercentage =
      some 0 ∧
    StateInv (exGuardedOps.foldl applyOp exEmptyRMState) := by
  constructor
  · rw [(phase_percentage_guarded_invariant.1 0 "r1"
      (createRolloutPlan "r1" exPlanInput exEmptyRMState) _ rfl).1]
    rfl
  · exact phase_percentage_guarded_invariant.2 exGuardedOps exEmptyRMState
      (fun _ _ h => nomatch h) ⟨rfl, rfl, rfl, trivial⟩
